import Mathlib

/-!
Verification of the slot reservation and availability engine of the
jetskiandmore backend.

The development shallowly embeds the relevant Python code:

* `app/db.py` — the slot reservation store backed by the MongoDB
  `timeslots` collection: `slot_key`, `hold_slot` (atomic create-if-absent,
  enforced by the unique index `uniq_slot_key` on `key`), `book_slot`
  (promotion via `update_one` with `upsert=True`), and the storage-native
  TTL expiry sweep (index `ttl_hold_until` with `expireAfterSeconds=0` on
  `holdUntil`).
* `app/routers.py` — duration resolution (`_ride_duration_minutes`),
  time parsing (`_parse_time_str_to_minutes`), the blocked-interval
  computation and the candidate sweep of the `/timeslots` endpoint, and
  the hold-placing step of `POST /payments/initiate` (shared verbatim by
  `/payments/checkout` and `/payments/link`).

Timestamps are modelled as integers counting minutes; all slot arithmetic
in the source is integer arithmetic on minutes since midnight, modelled
with `Nat` (Python `max(0, t - buffer)` agrees with truncated `Nat`
subtraction, and negative intermediate values never change observable
behaviour, as noted where relevant).
-/

namespace JetskiAndMore

/-! ### The `timeslots` collection (src/app/db.py) -/

/-- A document of the `timeslots` collection.  `hold_slot` inserts documents
with every field present; the `upsert=True` branch of `book_slot` creates a
document carrying only the query field `key` and the `$set` field `status`,
so the remaining fields are optional. -/
structure SlotRecord where
  rideId : Option String
  date : Option String
  time : Option String
  key : String
  status : String
  holdUntil : Option Int
  createdAt : Option Int
  deriving DecidableEq

/-- The `timeslots` collection.  The unique index `uniq_slot_key` keeps at
most one document per `key`; the operations below maintain that. -/
abbrev Store := List SlotRecord

/-- `slot_key` from src/app/db.py: `f"{ride_id}|{date or ''}|{time_str or ''}"`. -/
def slot_key (ride_id : String) (date time_str : Option String) : String :=
  ride_id ++ "|" ++ date.getD "" ++ "|" ++ time_str.getD ""

/-- Whether some document with the given `key` is physically present
(this is exactly the condition under which the unique index makes
`insert_one` raise `DuplicateKeyError`). -/
def keyOccupied (store : Store) (key : String) : Bool :=
  store.any (fun r => r.key == key)

/-- `hold_slot` from src/app/db.py: builds the hold document (status `hold`,
`holdUntil = utcnow + timedelta(minutes=max(1, minutes))`) and attempts
`insert_one`; returns `True` on insertion and `False` on `DuplicateKeyError`
(raised iff a document with the same `key` is already present, whatever its
status or expiry).  `now` is the current time in minutes. -/
def hold_slot (store : Store) (now : Int) (ride_id : String)
    (date time_str : Option String) (minutes : Int := 20) : Store × Bool :=
  let key := slot_key ride_id date time_str
  if keyOccupied store key then
    (store, false)
  else
    (⟨some ride_id, date, time_str, key, "hold",
      some (now + max 1 minutes), some now⟩ :: store, true)

/-- The effect of `update_one` with `{'$set': {'status': 'booked'},
'$unset': {'holdUntil': ''}}` on a matched document. -/
def applyBookUpdate (r : SlotRecord) : SlotRecord :=
  ⟨r.rideId, r.date, r.time, r.key, "booked", none, r.createdAt⟩

/-- `update_one` updates at most one matching document: replace the first
element satisfying `p` by its image under `f`, leaving the rest unchanged. -/
def updateFirst (p : SlotRecord → Bool) (f : SlotRecord → SlotRecord) :
    Store → Store
  | [] => []
  | r :: rs => if p r then f r :: rs else r :: updateFirst p f rs

/-- `book_slot` from src/app/db.py:
`update_one({'key': key}, {'$set': {'status': 'booked'}, '$unset':
{'holdUntil': ''}}, upsert=True)`.  When no document matches, the upsert
inserts a document built from the query fields plus the `$set` fields:
`{'key': key, 'status': 'booked'}`.  The Python function returns `None`:
it reports no status to its caller. -/
def book_slot (store : Store) (ride_id : String)
    (date time_str : Option String) : Store :=
  let key := slot_key ride_id date time_str
  if keyOccupied store key then
    updateFirst (fun r => r.key == key) applyBookUpdate store
  else
    store ++ [⟨none, none, none, key, "booked", none, none⟩]

/-- The storage-native TTL expiry sweep (`ttl_hold_until` index with
`expireAfterSeconds=0`): documents whose `holdUntil` field is present and
not in the future are removed; documents without the field are untouched. -/
def ttl_sweep (now : Int) (store : Store) : Store :=
  store.filter (fun r =>
    match r.holdUntil with
    | some u => decide (now < u)
    | none => true)

/-- Stores reachable from the empty collection through the three operations
the running system performs on `timeslots`: hold insertion, promotion and
the TTL sweep. -/
inductive Reachable : Store → Prop
  | init : Reachable []
  | hold (s : Store) (now : Int) (ride_id : String) (date time_str : Option String)
      (minutes : Int) : Reachable s →
      Reachable (hold_slot s now ride_id date time_str minutes).1
  | book (s : Store) (ride_id : String) (date time_str : Option String) :
      Reachable s → Reachable (book_slot s ride_id date time_str)
  | sweep (s : Store) (now : Int) : Reachable s → Reachable (ttl_sweep now s)

/-! #### Helper lemmas about the store operations -/

theorem keyOccupied_of_mem {store : Store} {rec : SlotRecord}
    (hmem : rec ∈ store) : keyOccupied store rec.key = true := by
  simp only [keyOccupied, List.any_eq_true]
  exact ⟨rec, hmem, by simp⟩

theorem mem_updateFirst_of_fix {rec : SlotRecord} {p f} {store : Store}
    (hmem : rec ∈ store) (hfix : f rec = rec) :
    rec ∈ updateFirst p f store := by
  induction store with
  | nil => cases hmem
  | cons x xs ih =>
      rcases List.mem_cons.mp hmem with h | h
      · subst h
        by_cases hp : p rec = true
        · simp [updateFirst, hp, hfix]
        · simp [updateFirst, hp]
      · by_cases hp : p x = true
        · simp [updateFirst, hp, h]
        · simp only [updateFirst, hp, Bool.false_eq_true, if_false,
            List.mem_cons]
          exact Or.inr (ih h)

theorem mem_updateFirst_cases {rec : SlotRecord} {p f} {store : Store}
    (hmem : rec ∈ updateFirst p f store) :
    rec ∈ store ∨ ∃ x ∈ store, rec = f x := by
  induction store with
  | nil => cases hmem
  | cons x xs ih =>
      by_cases hp : p x = true
      · simp only [updateFirst, hp, if_true, List.mem_cons] at hmem
        rcases hmem with h | h
        · exact Or.inr ⟨x, List.mem_cons_self x xs, h⟩
        · exact Or.inl (List.mem_cons_of_mem x h)
      · simp only [updateFirst, hp, Bool.false_eq_true, if_false,
          List.mem_cons] at hmem
        rcases hmem with h | h
        · exact Or.inl (by simp [h])
        · rcases ih h with h1 | ⟨y, hy, hyy⟩
          · exact Or.inl (List.mem_cons_of_mem x h1)
          · exact Or.inr ⟨y, List.mem_cons_of_mem x hy, hyy⟩

theorem applyBookUpdate_fixed {rec : SlotRecord} (hb : rec.status = "booked")
    (hu : rec.holdUntil = none) : applyBookUpdate rec = rec := by
  cases rec
  simp only [applyBookUpdate] at *
  simp_all

/-- Every `booked` document of a reachable store carries no `holdUntil`
field: `hold_slot` only inserts `hold` documents, `book_slot` `$unset`s the
field on the document it books (and its upsert document has no such field),
and the sweep only removes documents. -/
theorem booked_has_no_holdUntil {s : Store} (hs : Reachable s) :
    ∀ rec ∈ s, rec.status = "booked" → rec.holdUntil = none := by
  induction hs with
  | init => intro rec h; cases h
  | hold s now ride_id date time_str minutes _ ih =>
      intro rec hmem hb
      simp only [hold_slot] at hmem
      by_cases hocc : keyOccupied s (slot_key ride_id date time_str) = true
      · simp only [hocc, if_true] at hmem
        exact ih rec hmem hb
      · simp only [hocc] at hmem
        simp only [Bool.false_eq_true, if_false, List.mem_cons] at hmem
        rcases hmem with h | h
        · subst h; simp at hb
        · exact ih rec h hb
  | book s ride_id date time_str _ ih =>
      intro rec hmem hb
      simp only [book_slot] at hmem
      by_cases hocc : keyOccupied s (slot_key ride_id date time_str) = true
      · simp only [hocc, if_true] at hmem
        rcases mem_updateFirst_cases hmem with h | ⟨x, _, hx⟩
        · exact ih rec h hb
        · subst hx; rfl
      · simp only [hocc, Bool.false_eq_true, if_false,
          List.mem_append, List.mem_singleton] at hmem
        rcases hmem with h | h
        · exact ih rec h hb
        · subst h; rfl
  | sweep s now _ ih =>
      intro rec hmem hb
      exact ih rec (List.mem_of_mem_filter hmem) hb

/-- A concrete hold whose `holdUntil` (minute 5) has passed at `now = 100`
but whose document is still physically present (the TTL monitor has not yet
removed it). -/
def expiredHoldExample : SlotRecord :=
  ⟨some "30-1", some "2025-08-01", some "10:00",
   "30-1|2025-08-01|10:00", "hold", some 5, some 0⟩

/-- C1 (counterexample): with only an expired hold physically present on the
key, the store contains no record that is `booked` or an unexpired `hold`,
yet `hold_slot` still returns conflict — the unique index rejects the insert
on mere physical presence, so an expired hold whose record has not been
removed does cause the next TryHold to return conflict. -/
theorem hold_conflicts_on_expired_unreclaimed_hold :
    (hold_slot [expiredHoldExample] 100 "30-1"
        (some "2025-08-01") (some "10:00") 20).2 = false
    ∧ ∀ r ∈ [expiredHoldExample],
        ¬(r.status = "booked" ∨ (r.status = "hold" ∧
            ∃ u, r.holdUntil = some u ∧ (100 : Int) < u)) := by
  constructor
  · rfl
  · intro r hr
    simp only [List.mem_singleton] at hr
    subst hr
    rintro (h | ⟨-, u, hu, hlt⟩)
    · simp [expiredHoldExample] at h
    · simp only [expiredHoldExample] at hu
      cases hu
      omega

/-- C1 (amended): `hold_slot` returns success exactly when no record
physically occupies the key (whatever its status or expiry); a TryHold
performed immediately after another TryHold on the same key always observes
conflict, so of concurrent racers serialized by the store at most one
succeeds; and once the TTL sweep has removed the (expired) holds occupying
a key, the next TryHold succeeds. -/
theorem hold_success_iff_key_free (store : Store) (now now2 : Int)
    (ride_id : String) (date time_str : Option String) (m m2 : Int) :
    ((hold_slot store now ride_id date time_str m).2 = true ↔
        keyOccupied store (slot_key ride_id date time_str) = false)
    ∧ (hold_slot (hold_slot store now ride_id date time_str m).1 now2
        ride_id date time_str m2).2 = false
    ∧ ((∀ r ∈ store, r.key = slot_key ride_id date time_str →
          ∃ u, r.holdUntil = some u ∧ u ≤ now) →
        (hold_slot (ttl_sweep now store) now ride_id date time_str m).2
          = true) := by
  refine ⟨?_, ?_, ?_⟩
  · simp only [hold_slot]
    by_cases hocc : keyOccupied store (slot_key ride_id date time_str) = true
    · simp [hocc]
    · simp [hocc, Bool.eq_false_iff.mpr hocc]
  · simp only [hold_slot]
    by_cases hocc : keyOccupied store (slot_key ride_id date time_str) = true
    · simp [hocc]
    · simp only [hocc, Bool.false_eq_true, if_false]
      have : keyOccupied
          (⟨some ride_id, date, time_str, slot_key ride_id date time_str,
            "hold", some (now + max 1 m), some now⟩ :: store)
          (slot_key ride_id date time_str) = true := by
        simp [keyOccupied]
      simp [this]
  · intro hall
    simp only [hold_slot]
    have hfree : keyOccupied (ttl_sweep now store)
        (slot_key ride_id date time_str) = false := by
      simp only [keyOccupied, List.any_eq_true, not_exists]
      rw [Bool.eq_false_iff]
      intro hex
      simp only [List.any_eq_true] at hex
      obtain ⟨r, hr, hkey⟩ := hex
      simp only [ttl_sweep, List.mem_filter] at hr
      obtain ⟨hmem, hkeep⟩ := hr
      obtain ⟨u, hu, hle⟩ := hall r hmem (by simpa using hkey)
      rw [hu] at hkeep
      simp only [decide_eq_true_eq] at hkeep
      omega
    simp [hfree]

/-- C1 (witness): instantiating the amended theorem at a concrete store
holding exactly one expired hold: after the sweep at `now = 100`, the next
TryHold on that key succeeds. -/
theorem hold_success_iff_key_free_witness :
    (hold_slot (ttl_sweep 100 [expiredHoldExample]) 100 "30-1"
        (some "2025-08-01") (some "10:00") 20).2 = true :=
  (hold_success_iff_key_free [expiredHoldExample] 100 100 "30-1"
      (some "2025-08-01") (some "10:00") 20 20).2.2
    (by
      intro r hr hk
      simp only [List.mem_singleton] at hr
      subst hr
      exact ⟨5, rfl, by omega⟩)

/-- C3 (counterexample): promoting a key for which no record exists (the
hold expired and was reclaimed) does not return `not_found` — `book_slot`
returns `None` (it has no result value at all) and its `upsert=True` creates
a fresh `booked` record for the key. -/
theorem book_upserts_on_absent_key :
    book_slot [] "30-1" (some "2025-08-01") (some "10:00")
      = [⟨none, none, none, "30-1|2025-08-01|10:00", "booked", none, none⟩]
    ∧ (book_slot [] "30-1" (some "2025-08-01") (some "10:00")).any
        (fun r => r.key == "30-1|2025-08-01|10:00" && r.status == "booked")
        = true := by
  constructor <;> rfl

/-- C3 (amended): for every slot key with no record, `book_slot` creates a
`booked` record for that key via its upsert and returns no signal to the
caller (its Python return type is `None`); the reservation loss is silent. -/
theorem book_on_absent_key_creates_booked (store : Store) (ride_id : String)
    (date time_str : Option String)
    (h : keyOccupied store (slot_key ride_id date time_str) = false) :
    book_slot store ride_id date time_str
      = store ++
        [⟨none, none, none, slot_key ride_id date time_str,
          "booked", none, none⟩] := by
  simp [book_slot, h]

/-- C3 (witness): the amended theorem at the empty store. -/
theorem book_on_absent_key_creates_booked_witness :
    book_slot [] "30-1" (some "2025-08-01") (some "10:00")
      = [] ++
        [⟨none, none, none, "30-1|2025-08-01|10:00", "booked", none, none⟩] :=
  book_on_absent_key_creates_booked [] "30-1" (some "2025-08-01")
    (some "10:00") rfl

/-- C4: in any reachable store, a `booked` record carries no `holdUntil`
field (so the TTL mechanism never deletes it), it survives every operation
unchanged — hold insertion, any promotion, and the expiry sweep — and every
TryHold on its key returns conflict. -/
theorem booked_is_terminal {s : Store} (hs : Reachable s)
    (rec : SlotRecord) (hmem : rec ∈ s) (hb : rec.status = "booked") :
    rec.holdUntil = none
    ∧ (∀ now ride_id date time_str m,
        rec ∈ (hold_slot s now ride_id date time_str m).1)
    ∧ (∀ ride_id date time_str, rec ∈ book_slot s ride_id date time_str)
    ∧ (∀ now, rec ∈ ttl_sweep now s)
    ∧ (∀ now ride_id date time_str m,
        slot_key ride_id date time_str = rec.key →
          (hold_slot s now ride_id date time_str m).2 = false) := by
  have hu : rec.holdUntil = none := booked_has_no_holdUntil hs rec hmem hb
  refine ⟨hu, ?_, ?_, ?_, ?_⟩
  · intro now ride_id date time_str m
    simp only [hold_slot]
    by_cases hocc : keyOccupied s (slot_key ride_id date time_str) = true
    · simpa [hocc] using hmem
    · simp only [hocc, Bool.false_eq_true, if_false]
      exact List.mem_cons_of_mem _ hmem
  · intro ride_id date time_str
    simp only [book_slot]
    by_cases hocc : keyOccupied s (slot_key ride_id date time_str) = true
    · simp only [hocc, if_true]
      exact mem_updateFirst_of_fix hmem (applyBookUpdate_fixed hb hu)
    · simp only [hocc, Bool.false_eq_true, if_false]
      exact List.mem_append_left _ hmem
  · intro now
    simp only [ttl_sweep]
    exact List.mem_filter.mpr ⟨hmem, by rw [hu]⟩
  · intro now ride_id date time_str m hkey
    simp only [hold_slot]
    rw [hkey, keyOccupied_of_mem hmem]
    simp

/-- C4 (witness): the terminal-booked theorem at the concrete reachable
store obtained by one successful hold followed by one promotion. -/
theorem booked_is_terminal_witness :
    ((⟨some "30-1", some "2025-08-01", some "10:00",
        "30-1|2025-08-01|10:00", "booked", none, some (0 : Int)⟩ :
        SlotRecord).holdUntil = none)
    ∧ (∀ now ride_id date time_str m,
        (⟨some "30-1", some "2025-08-01", some "10:00",
          "30-1|2025-08-01|10:00", "booked", none, some 0⟩ : SlotRecord)
          ∈ (hold_slot (book_slot
              (hold_slot [] 0 "30-1" (some "2025-08-01") (some "10:00") 20).1
              "30-1" (some "2025-08-01") (some "10:00"))
              now ride_id date time_str m).1)
    ∧ (∀ ride_id date time_str,
        (⟨some "30-1", some "2025-08-01", some "10:00",
          "30-1|2025-08-01|10:00", "booked", none, some 0⟩ : SlotRecord)
          ∈ book_slot (book_slot
              (hold_slot [] 0 "30-1" (some "2025-08-01") (some "10:00") 20).1
              "30-1" (some "2025-08-01") (some "10:00"))
              ride_id date time_str)
    ∧ (∀ now,
        (⟨some "30-1", some "2025-08-01", some "10:00",
          "30-1|2025-08-01|10:00", "booked", none, some 0⟩ : SlotRecord)
          ∈ ttl_sweep now (book_slot
              (hold_slot [] 0 "30-1" (some "2025-08-01") (some "10:00") 20).1
              "30-1" (some "2025-08-01") (some "10:00")))
    ∧ (∀ now ride_id date time_str m,
        slot_key ride_id date time_str = "30-1|2025-08-01|10:00" →
          (hold_slot (book_slot
              (hold_slot [] 0 "30-1" (some "2025-08-01") (some "10:00") 20).1
              "30-1" (some "2025-08-01") (some "10:00"))
              now ride_id date time_str m).2 = false) :=
  booked_is_terminal
    (Reachable.book _ "30-1" (some "2025-08-01") (some "10:00")
      (Reachable.hold [] 0 "30-1" (some "2025-08-01") (some "10:00") 20
        Reachable.init))
    ⟨some "30-1", some "2025-08-01", some "10:00",
      "30-1|2025-08-01|10:00", "booked", none, some 0⟩
    (by decide) rfl

/-- C9: after one successful hold and one promotion, promoting the same key
again leaves the store — in particular the booked record — completely
unchanged, and a booked record for the key is indeed present.  `book_slot`
always completes and its Python return type is `None`, so the repeated call
reports the same (vacuous) success and has no duplicate side effect. -/
theorem promote_idempotent (store : Store) (now : Int) (ride_id : String)
    (date time_str : Option String) (m : Int)
    (h : (hold_slot store now ride_id date time_str m).2 = true) :
    book_slot
        (book_slot (hold_slot store now ride_id date time_str m).1
          ride_id date time_str) ride_id date time_str
      = book_slot (hold_slot store now ride_id date time_str m).1
          ride_id date time_str
    ∧ ∃ rec ∈ book_slot (hold_slot store now ride_id date time_str m).1
          ride_id date time_str,
        rec.key = slot_key ride_id date time_str ∧ rec.status = "booked" := by
  have hocc : keyOccupied store (slot_key ride_id date time_str) = false := by
    by_cases hc : keyOccupied store (slot_key ride_id date time_str) = true
    · simp [hold_slot, hc] at h
    · exact Bool.eq_false_iff.mpr hc
  have h1 : (hold_slot store now ride_id date time_str m).1
      = ⟨some ride_id, date, time_str, slot_key ride_id date time_str,
          "hold", some (now + max 1 m), some now⟩ :: store := by
    simp [hold_slot, hocc]
  rw [h1]
  have hocc1 : keyOccupied
      (⟨some ride_id, date, time_str, slot_key ride_id date time_str,
        "hold", some (now + max 1 m), some now⟩ :: store)
      (slot_key ride_id date time_str) = true := by
    simp [keyOccupied]
  have h2 : book_slot
      (⟨some ride_id, date, time_str, slot_key ride_id date time_str,
        "hold", some (now + max 1 m), some now⟩ :: store)
      ride_id date time_str
      = ⟨some ride_id, date, time_str, slot_key ride_id date time_str,
          "booked", none, some now⟩ :: store := by
    simp [book_slot, hocc1, updateFirst, applyBookUpdate]
  rw [h2]
  constructor
  · have hocc2 : keyOccupied
        (⟨some ride_id, date, time_str, slot_key ride_id date time_str,
          "booked", none, some now⟩ :: store)
        (slot_key ride_id date time_str) = true := by
      simp [keyOccupied]
    simp [book_slot, hocc2, updateFirst, applyBookUpdate]
  · exact ⟨_, List.mem_cons_self _ _, rfl, rfl⟩

/-- C9 (witness): the idempotence theorem at the empty store. -/
theorem promote_idempotent_witness :
    book_slot
        (book_slot (hold_slot [] 0 "30-1" (some "2025-08-01")
            (some "10:00") 20).1 "30-1" (some "2025-08-01") (some "10:00"))
        "30-1" (some "2025-08-01") (some "10:00")
      = book_slot (hold_slot [] 0 "30-1" (some "2025-08-01")
            (some "10:00") 20).1 "30-1" (some "2025-08-01") (some "10:00")
    ∧ ∃ rec ∈ book_slot (hold_slot [] 0 "30-1" (some "2025-08-01")
            (some "10:00") 20).1 "30-1" (some "2025-08-01") (some "10:00"),
        rec.key = slot_key "30-1" (some "2025-08-01") (some "10:00")
          ∧ rec.status = "booked" :=
  promote_idempotent [] 0 "30-1" (some "2025-08-01") (some "10:00") 20 rfl

/-- C10: every successful `hold_slot` call inserts a record with status
`hold` whose `holdUntil` is the current time plus `max 1 minutes` minutes —
so even a zero or negative requested TTL yields an expiry strictly in the
future by at least one minute (the `minutes` parameter defaults to 20,
mirroring the Python signature). -/
theorem hold_record_shape (store : Store) (now : Int) (ride_id : String)
    (date time_str : Option String) (m : Int)
    (h : (hold_slot store now ride_id date time_str m).2 = true) :
    (hold_slot store now ride_id date time_str m).1
      = ⟨some ride_id, date, time_str, slot_key ride_id date time_str,
          "hold", some (now + max 1 m), some now⟩ :: store
    ∧ now + 1 ≤ now + max 1 m := by
  have hocc : keyOccupied store (slot_key ride_id date time_str) = false := by
    by_cases hc : keyOccupied store (slot_key ride_id date time_str) = true
    · simp [hold_slot, hc] at h
    · exact Bool.eq_false_iff.mpr hc
  constructor
  · simp [hold_slot, hocc]
  · have : (1 : Int) ≤ max 1 m := le_max_left 1 m
    omega

/-- C10 (witness): a hold requested with a negative TTL of `-5` minutes at
time 0 still gets `holdUntil = 1`, one minute in the future. -/
theorem hold_record_shape_witness :
    (hold_slot [] 0 "30-1" (some "2025-08-01") (some "10:00") (-5)).1
      = ⟨some "30-1", some "2025-08-01", some "10:00",
          slot_key "30-1" (some "2025-08-01") (some "10:00"),
          "hold", some (0 + max 1 (-5)), some 0⟩ :: []
    ∧ (0 : Int) + 1 ≤ 0 + max 1 (-5) :=
  hold_record_shape [] 0 "30-1" (some "2025-08-01") (some "10:00") (-5) rfl

/-! ### Availability engine (src/app/routers.py) -/

def DAY_START_MINUTES : Nat := 8 * 60
def DAY_END_MINUTES : Nat := 17 * 60
def TIMESLOT_STEP_MINUTES : Nat := 15
def BOOKING_BUFFER_MINUTES : Nat := 10

/-- Whether a ride identifier matches the regular expression `^30-\d+$`
of `_ride_duration_minutes`: literally `30-` followed by one or more
digits. -/
def matches30 (s : String) : Bool :=
  s.take 3 == "30-" && !(s.drop 3).isEmpty && (s.drop 3).data.all (·.isDigit)

/-- Whether a ride identifier matches `^60-\d+$`. -/
def matches60 (s : String) : Bool :=
  s.take 3 == "60-" && !(s.drop 3).isEmpty && (s.drop 3).data.all (·.isDigit)

/-- `_ride_duration_minutes` from src/app/routers.py.  `configured` is the
`durationMinutes` field of the ride document when the lookup yields an
integer (`none` covers a missing ride, a missing field, a non-integer value,
or a database error); it is used only when positive, otherwise the static
fallback chain aligned with `DEFAULT_RIDES` applies. -/
def _ride_duration_minutes (configured : Option Int) (ride_id : String) :
    Nat :=
  match configured with
  | some d =>
      if 0 < d then d.toNat
      else if matches30 ride_id then 30
      else if matches60 ride_id then 60
      else if ride_id == "joy" then 10
      else if ride_id == "group" then 150
      else 30
  | none =>
      if matches30 ride_id then 30
      else if matches60 ride_id then 60
      else if ride_id == "joy" then 10
      else if ride_id == "group" then 150
      else 30

/-- Python `int(s)` on a string: surrounding whitespace is stripped, an
optional single sign is allowed, and the remainder must be one or more
decimal digits (digit-group underscores, a rarity Python also accepts, are
not modelled; no value in this development exercises them). -/
def digitsToNat (cs : List Char) : Option Nat :=
  if cs.isEmpty then none
  else if cs.all (·.isDigit) then
    some (cs.foldl (fun a c => 10 * a + (c.toNat - 48)) 0)
  else none

/-- The ASCII whitespace `int(...)` strips from both ends. -/
def isPyWs (c : Char) : Bool :=
  c == ' ' || c == '\t' || c == '\n' || c == '\r' || c == '\x0b' || c == '\x0c'

def pyInt (s : String) : Option Int :=
  match ((s.data.dropWhile isPyWs).reverse.dropWhile isPyWs).reverse with
  | '+' :: rest => (digitsToNat rest).map (fun n => (n : Int))
  | '-' :: rest => (digitsToNat rest).map (fun n => -(n : Int))
  | cs => (digitsToNat cs).map (fun n => (n : Int))

/-- Python `s.split(":", 1)` followed by unpacking into two names: yields
the part before the first colon and everything after it, failing (with the
`ValueError` the caller catches) when the string has no colon. -/
def splitOnceColon (s : String) : Option (String × String) :=
  match s.data.dropWhile (· ≠ ':') with
  | [] => none
  | _ :: post => some (⟨s.data.takeWhile (· ≠ ':')⟩, ⟨post⟩)

/-- `_parse_time_str_to_minutes` from src/app/routers.py.  `none` input
covers both a missing `time` field and a non-string value (the
`isinstance(s, str)` guard).  Any failure — no colon, a part that is not an
integer, or components out of the `0 ≤ hh < 24`, `0 ≤ mm < 60` ranges —
yields `none` rather than an error. -/
def _parse_time_str_to_minutes : Option String → Option Nat
  | none => none
  | some s =>
    match splitOnceColon s with
    | none => none
    | some (a, b) =>
      match pyInt a, pyInt b with
      | some hh, some mm =>
          if 0 ≤ hh ∧ hh < 24 ∧ 0 ≤ mm ∧ mm < 60 then
            some (hh * 60 + mm).toNat
          else none
      | some _, none => none
      | none, _ => none

/-- A document of the `bookings` collection, restricted to the fields the
`/timeslots` endpoint reads (the query matches on `rideId`, `date` and
`status`, and the projection keeps `time`). -/
structure BookingRecord where
  rideId : Option String
  date : Option String
  time : Option String
  status : String
  deriving DecidableEq

/-- The filter of the first blocked-interval query:
`{"rideId": rideId, "date": date, "status": {"$in": ["hold", "booked"]}}`
on `timeslots` (note: no expiry condition — expired but unreclaimed holds
still match). -/
def slotSourceMatches (rideId date : String) (r : SlotRecord) : Bool :=
  r.rideId == some rideId && r.date == some date &&
    (r.status == "hold" || r.status == "booked")

/-- The filter of the second blocked-interval query:
`{"rideId": rideId, "date": date, "status": {"$in": ["approved",
"processing", "created"]}}` on `bookings`. -/
def bookingSourceMatches (rideId date : String) (b : BookingRecord) : Bool :=
  b.rideId == some rideId && b.date == some date &&
    (b.status == "approved" || b.status == "processing" ||
      b.status == "created")

/-- The interval a single source document contributes:
`(max(0, start - buffer), min(24*60, start + duration + buffer))` when its
`time` parses, nothing otherwise (the `continue` branch).  With `Nat`,
`max 0 (m - buffer)` coincides with the Python `max(0, start - buffer)` on
a possibly-negative difference. -/
def blockFromTime (duration : Nat) (time : Option String) :
    Option (Nat × Nat) :=
  (_parse_time_str_to_minutes time).map (fun m =>
    (max 0 (m - BOOKING_BUFFER_MINUTES),
     min (24 * 60) (m + duration + BOOKING_BUFFER_MINUTES)))

/-- The `blocked` list of the `/timeslots` endpoint: the contribution of
the `timeslots` documents followed (list append, no merging and no
deduplication) by the contribution of the `bookings` documents. -/
def blockedIntervals (slots : List SlotRecord) (bookings : List BookingRecord)
    (rideId date : String) (duration : Nat) : List (Nat × Nat) :=
  ((slots.filter (slotSourceMatches rideId date)).filterMap
      (fun r => blockFromTime duration r.time))
    ++ ((bookings.filter (bookingSourceMatches rideId date)).filterMap
      (fun b => blockFromTime duration b.time))

/-- Python `f"{n:02d}"` for the nonnegative values formatted here. -/
def pad2 (n : Nat) : String :=
  if n < 10 then "0" ++ toString n else toString n

/-- The `f"{hh:02d}:{mm:02d}"` formatting of an emitted candidate start. -/
def fmtHHMM (t : Nat) : String :=
  pad2 (t / 60) ++ ":" ++ pad2 (t % 60)

/-- The inner conflict loop: candidate `[candidate_start, candidate_end)`
against one blocked `[b_start, b_end)`, half-open semantics:
`not (candidate_end <= b_start or candidate_start >= b_end)`. -/
def overlapsBlock (candidate_start candidate_end : Nat) (b : Nat × Nat) :
    Bool :=
  !(candidate_end ≤ b.1 || candidate_start ≥ b.2)

/-- The `for b_start, b_end in blocked` loop with its early `break`. -/
def hasConflict (blocked : List (Nat × Nat))
    (candidate_start candidate_end : Nat) : Bool :=
  blocked.any (overlapsBlock candidate_start candidate_end)

/-- The `while t <= latest_start` sweep of the `/timeslots` endpoint,
emitting `fmtHHMM t` for conflict-free candidates and stepping by 15.
`latest_start = DAY_END_MINUTES - duration` as truncated `Nat` subtraction:
when `duration > DAY_END_MINUTES` the Python value is negative and the loop
body never runs, exactly as here where the condition `480 ≤ 0` fails. -/
def availLoop (duration : Nat) (blocked : List (Nat × Nat)) (t : Nat) :
    List String :=
  if t ≤ DAY_END_MINUTES - duration then
    (if hasConflict blocked t (t + duration) then
      availLoop duration blocked (t + TIMESLOT_STEP_MINUTES)
    else
      fmtHHMM t :: availLoop duration blocked (t + TIMESLOT_STEP_MINUTES))
  else []
  termination_by DAY_END_MINUTES - duration + TIMESLOT_STEP_MINUTES - t
  decreasing_by
    all_goals
      simp only [DAY_END_MINUTES, TIMESLOT_STEP_MINUTES] at *
      omega

/-- The `times` list returned by the `/timeslots` endpoint for a given
resolved duration and blocked-interval list. -/
def timeslots_times (duration : Nat) (blocked : List (Nat × Nat)) :
    List String :=
  availLoop duration blocked DAY_START_MINUTES

/-- The candidate grid the sweep walks: `480 + 15 * k` for as long as the
candidate does not exceed `latest_start = 1020 - duration`. -/
def candidateStarts (duration : Nat) : List Nat :=
  (List.range ((1020 - duration + 15 - 480) / 15)).map (fun k => 480 + 15 * k)

theorem availLoop_closed (duration : Nat) (blocked : List (Nat × Nat)) :
    ∀ t, availLoop duration blocked t =
      (((List.range ((1020 - duration + 15 - t) / 15)).map
          (fun k => t + 15 * k)).filter
        (fun u => !hasConflict blocked u (u + duration))).map fmtHHMM := by
  have key : ∀ n t, 1020 - duration + 15 - t ≤ n →
      availLoop duration blocked t =
      (((List.range ((1020 - duration + 15 - t) / 15)).map
          (fun k => t + 15 * k)).filter
        (fun u => !hasConflict blocked u (u + duration))).map fmtHHMM := by
    intro n
    induction n with
    | zero =>
        intro t ht
        rw [availLoop.eq_def]
        simp only [DAY_END_MINUTES, TIMESLOT_STEP_MINUTES]
        rw [if_neg (by omega), (by omega : (1020 - duration + 15 - t) / 15 = 0)]
        simp
    | succ n ih =>
        intro t ht
        rw [availLoop.eq_def]
        simp only [DAY_END_MINUTES, TIMESLOT_STEP_MINUTES]
        by_cases hcond : t ≤ 17 * 60 - duration
        · rw [if_pos hcond]
          have hcond' : t ≤ 1020 - duration := by omega
          have hn : (1020 - duration + 15 - t) / 15
              = (1020 - duration + 15 - (t + 15)) / 15 + 1 := by omega
          have hrec := ih (t + 15) (by omega)
          have hmap :
              ((List.range ((1020 - duration + 15 - t) / 15)).map
                  (fun k => t + 15 * k))
                = t :: ((List.range ((1020 - duration + 15 - (t + 15)) / 15)).map
                    (fun k => (t + 15) + 15 * k)) := by
            rw [hn, List.range_succ_eq_map]
            simp only [List.map_cons, List.map_map, Nat.mul_zero, Nat.add_zero]
            refine congrArg (t :: ·) (List.map_congr_left ?_)
            intro k _
            simp only [Function.comp_apply, Nat.succ_eq_add_one]
            omega
          rw [hmap, List.filter_cons]
          cases hconf : hasConflict blocked t (t + duration) with
          | true => simp [hconf, hrec]
          | false => simp [hconf, hrec]
        · rw [if_neg hcond]
          rw [(by omega : (1020 - duration + 15 - t) / 15 = 0)]
          simp
  intro t
  exact key (1020 - duration + 15 - t) t le_rfl

theorem timeslots_times_closed (duration : Nat) (blocked : List (Nat × Nat)) :
    timeslots_times duration blocked
      = ((candidateStarts duration).filter
          (fun u => !hasConflict blocked u (u + duration))).map fmtHHMM := by
  have h := availLoop_closed duration blocked 480
  simpa [timeslots_times, DAY_START_MINUTES, candidateStarts] using h

theorem mem_candidateStarts (duration u : Nat) :
    u ∈ candidateStarts duration ↔
      (∃ k, u = 480 + 15 * k) ∧ u ≤ 1020 - duration := by
  simp only [candidateStarts, List.mem_map, List.mem_range]
  constructor
  · rintro ⟨k, hk, rfl⟩
    exact ⟨⟨k, rfl⟩, by omega⟩
  · rintro ⟨⟨k, rfl⟩, hle⟩
    exact ⟨k, by omega, rfl⟩

theorem candidateStarts_ascending (duration : Nat) :
    (candidateStarts duration).Pairwise (· < ·) := by
  unfold candidateStarts
  rw [List.pairwise_map]
  exact (List.pairwise_lt_range _).imp (fun h => by omega)

theorem length_filterMap_map_comp {α β γ : Type} (g : α → Option β)
    (h : β → γ) (l : List α) :
    (l.filterMap (fun a => (g a).map h)).length = (l.filterMap g).length := by
  induction l with
  | nil => rfl
  | cons x xs ih => cases hx : g x <;> simp [List.filterMap_cons, hx, ih]

/-- C5 (counterexample): with duration 60 and the blocked interval
`[590, 660)`, the start `08:50` is not emitted by the availability sweep,
although its occupancy `[530, 590)` overlaps no blocked interval — `530` is
not on the 15-minute candidate grid from `08:00`, so the claim that `08:50`
is included fails. -/
theorem candidate_0850_not_emitted :
    "08:50" ∉ timeslots_times 60 [(590, 660)]
    ∧ hasConflict [(590, 660)] 530 (530 + 60) = false := by
  constructor
  · rw [timeslots_times_closed]
    decide
  · decide

/-- C5 (amended): the availability sweep emits exactly the conflict-free
candidates, formatted `HH:MM`, in ascending candidate order: the output is
the image under formatting of the filtered candidate grid; a value is a
candidate iff it is `480 + 15k` and at most `1020 - duration`; a candidate
conflicts iff some blocked interval overlaps its occupancy under the
half-open rule.  In the example (duration 60, blocked `[590, 660)`), `09:45`
is excluded, and `[530, 590)` does not overlap `[590, 660)` under the
half-open rule, but `530` (`08:50`) is not a generated candidate, so it is
not emitted. -/
theorem availability_emits_iff_no_overlap (duration : Nat)
    (blocked : List (Nat × Nat)) :
    timeslots_times duration blocked
      = ((candidateStarts duration).filter
          (fun u => !hasConflict blocked u (u + duration))).map fmtHHMM
    ∧ (∀ u, u ∈ candidateStarts duration ↔
        (∃ k, u = 480 + 15 * k) ∧ u ≤ 1020 - duration)
    ∧ (candidateStarts duration).Pairwise (· < ·)
    ∧ (∀ u, hasConflict blocked u (u + duration) = true ↔
        ∃ b ∈ blocked, ¬(u + duration ≤ b.1 ∨ u ≥ b.2))
    ∧ "09:45" ∉ timeslots_times 60 [(590, 660)]
    ∧ hasConflict [(590, 660)] 530 (530 + 60) = false
    ∧ 530 ∉ candidateStarts 60 := by
  refine ⟨timeslots_times_closed duration blocked,
    mem_candidateStarts duration, candidateStarts_ascending duration,
    ?_, ?_, by decide, by decide⟩
  · intro u
    simp [hasConflict, List.any_eq_true, overlapsBlock, not_or]
  · rw [timeslots_times_closed]
    decide

/-- The booked-at-noon reservation record of the regression scenario of
the specification. -/
def noonBookedSlot : SlotRecord :=
  ⟨some "30-1", some "2025-08-01", some "12:00",
   "30-1|2025-08-01|12:00", "booked", none, none⟩

/-- C6 (counterexample): in the regression scenario (duration 30, booked
slot at 12:00, buffer 10), the blocked interval the code computes is not
`[710, 770)`, and `11:30` — which the claim says is included — is not in
the availability output. -/
theorem noon_scenario_not_as_claimed :
    blockedIntervals [noonBookedSlot] [] "30-1" "2025-08-01" 30 ≠ [(710, 770)]
    ∧ "11:30" ∉ timeslots_times 30
        (blockedIntervals [noonBookedSlot] [] "30-1" "2025-08-01" 30) := by
  constructor
  · decide
  · rw [timeslots_times_closed]
    decide

/-- C6 (amended): the booked slot at 12:00 with duration 30 and buffer 10
blocks `[710, 760)`; the availability output excludes the candidates from
11:30 through 12:30 and includes every other candidate; the first free
start after the block is 12:45. -/
theorem noon_scenario_availability :
    _ride_duration_minutes none "30-1" = 30
    ∧ blockedIntervals [noonBookedSlot] [] "30-1" "2025-08-01" 30
        = [(710, 760)]
    ∧ timeslots_times 30 [(710, 760)]
        = ["08:00", "08:15", "08:30", "08:45", "09:00", "09:15", "09:30",
           "09:45", "10:00", "10:15", "10:30", "10:45", "11:00", "11:15",
           "12:45", "13:00", "13:15", "13:30", "13:45", "14:00", "14:15",
           "14:30", "14:45", "15:00", "15:15", "15:30", "15:45", "16:00",
           "16:15", "16:30"] := by
  refine ⟨by decide, by decide, ?_⟩
  rw [timeslots_times_closed]
  decide

/-- C7: every reservation record with status `hold` or `booked` and every
booking record with an active status on the requested resource and date
whose time parses to `t` contributes the interval
`[max(0, t - 10), min(1440, t + duration + 10))` to the blocked list;
records whose time is missing or does not parse are skipped (they change
nothing, and no error is possible — the functions are total); the two
sources are appended into one list whose length is the sum of the two
contributions, so duplicates and overlaps are never merged. -/
theorem blocked_intervals_construction (slots : List SlotRecord)
    (bookings : List BookingRecord) (rideId date : String) (duration : Nat) :
    (∀ r ∈ slots, slotSourceMatches rideId date r = true →
      ∀ t, _parse_time_str_to_minutes r.time = some t →
        (max 0 (t - 10), min 1440 (t + duration + 10))
          ∈ blockedIntervals slots bookings rideId date duration)
    ∧ (∀ b ∈ bookings, bookingSourceMatches rideId date b = true →
      ∀ t, _parse_time_str_to_minutes b.time = some t →
        (max 0 (t - 10), min 1440 (t + duration + 10))
          ∈ blockedIntervals slots bookings rideId date duration)
    ∧ (∀ r : SlotRecord, _parse_time_str_to_minutes r.time = none →
        blockedIntervals (r :: slots) bookings rideId date duration
          = blockedIntervals slots bookings rideId date duration)
    ∧ (∀ b : BookingRecord, _parse_time_str_to_minutes b.time = none →
        blockedIntervals slots (b :: bookings) rideId date duration
          = blockedIntervals slots bookings rideId date duration)
    ∧ (blockedIntervals slots bookings rideId date duration).length
        = ((slots.filter (slotSourceMatches rideId date)).filterMap
            (fun r => _parse_time_str_to_minutes r.time)).length
          + ((bookings.filter (bookingSourceMatches rideId date)).filterMap
            (fun b => _parse_time_str_to_minutes b.time)).length := by
  refine ⟨?_, ?_, ?_, ?_, ?_⟩
  · intro r hr hmatch t ht
    apply List.mem_append_left
    apply List.mem_filterMap.mpr
    refine ⟨r, List.mem_filter.mpr ⟨hr, hmatch⟩, ?_⟩
    simp [blockFromTime, ht, BOOKING_BUFFER_MINUTES]
  · intro b hb hmatch t ht
    apply List.mem_append_right
    apply List.mem_filterMap.mpr
    refine ⟨b, List.mem_filter.mpr ⟨hb, hmatch⟩, ?_⟩
    simp [blockFromTime, ht, BOOKING_BUFFER_MINUTES]
  · intro r ht
    simp only [blockedIntervals, List.filter_cons]
    cases hm : slotSourceMatches rideId date r
    · simp
    · simp [List.filterMap_cons, blockFromTime, ht]
  · intro b ht
    simp only [blockedIntervals, List.filter_cons]
    cases hm : bookingSourceMatches rideId date b
    · simp
    · simp [List.filterMap_cons, blockFromTime, ht]
  · simp only [blockedIntervals, List.length_append, blockFromTime]
    rw [length_filterMap_map_comp, length_filterMap_map_comp]

/-- C7 (witness): the construction theorem instantiated on the noon
scenario record: its 12:00 time contributes the clamped interval. -/
theorem blocked_intervals_construction_witness :
    (max 0 (720 - 10), min 1440 (720 + 30 + 10))
      ∈ blockedIntervals [noonBookedSlot] [] "30-1" "2025-08-01" 30 :=
  (blocked_intervals_construction [noonBookedSlot] [] "30-1" "2025-08-01"
      30).1 noonBookedSlot (List.mem_singleton.mpr rfl) (by decide)
    720 (by decide)

/-- C8: duration resolution never fails and always returns a positive
number of minutes; with no configured duration, `30-<n>` resolves to 30,
`60-<n>` to 60, the special resources `joy` and `group` to 10 and 150,
and every other identifier to the baseline 30. -/
theorem duration_resolution_total (configured : Option Int) (rid : String) :
    0 < _ride_duration_minutes configured rid
    ∧ (matches30 rid = true → _ride_duration_minutes none rid = 30)
    ∧ (matches60 rid = true → _ride_duration_minutes none rid = 60)
    ∧ _ride_duration_minutes none "joy" = 10
    ∧ _ride_duration_minutes none "group" = 150
    ∧ (matches30 rid = false → matches60 rid = false → rid ≠ "joy" →
        rid ≠ "group" → _ride_duration_minutes none rid = 30) := by
  refine ⟨?_, ?_, ?_, by decide, by decide, ?_⟩
  · rcases configured with _ | d
    · simp only [_ride_duration_minutes]
      split_ifs <;> norm_num
    · simp only [_ride_duration_minutes]
      split_ifs with h
      · omega
      all_goals norm_num
  · intro h30
    simp [_ride_duration_minutes, h30]
  · intro h60
    have h30 : matches30 rid = false := by
      rw [Bool.eq_false_iff]
      intro h30
      simp only [matches30, matches60, Bool.and_eq_true, beq_iff_eq] at h30 h60
      have : "30-" = "60-" := h30.1.1 ▸ h60.1.1
      exact absurd this (by decide)
    simp [_ride_duration_minutes, h30, h60]
  · intro h30 h60 hjoy hgroup
    simp [_ride_duration_minutes, h30, h60, hjoy, hgroup]

/-- C8 (witness): the resolution theorem at `30-5` with no configured
duration. -/
theorem duration_resolution_total_witness :
    0 < _ride_duration_minutes none "30-5"
    ∧ _ride_duration_minutes none "30-5" = 30 :=
  ⟨(duration_resolution_total none "30-5").1,
   (duration_resolution_total none "30-5").2.1 (by decide)⟩

/-! ### Hold placement in the payment flow (src/app/routers.py) -/

/-- A raised Python exception.  `fastapi.HTTPException` derives from
`Exception`, like the database errors `hold_slot` may raise, so a single
type models everything an `except Exception` clause catches. -/
inductive PyExc
  | httpExc (status : Nat) (detail : String)
  | otherExc
  deriving DecidableEq

/-- Python truthiness of the optional `booking.date` / `booking.time`
strings: `None` and the empty string are falsy. -/
def pyTruthy : Option String → Bool
  | none => false
  | some s => !s.isEmpty

/-- The body of the `try:` block shared verbatim by `/payments/initiate`,
`/payments/checkout` and `/payments/link`: call `hold_slot` (which may
itself raise, modelled by the `Except` argument) and raise
`HTTPException(409, "Selected time slot is no longer available")` when it
returns `False`. -/
def holdTryBody (holdCall : Except PyExc Bool) : Except PyExc Unit :=
  match holdCall with
  | .error e => .error e
  | .ok ok =>
      if ok = false then
        .error (.httpExc 409 "Selected time slot is no longer available")
      else .ok ()

/-- The response `POST /payments/initiate` returns when it reaches its
final `return`. -/
structure InitiateResponse where
  currency : String
  amountInCents : Nat
  publicKey : String
  reference : String
  deriving DecidableEq

/-- `payments_initiate` from src/app/routers.py, after the amount
computation: fail with 500 when no public key is configured; when the
booking has a truthy date and time, run the hold `try:` block, whose
`except Exception: pass` clause catches every exception — including the
`HTTPException(409)` the block itself raises, since `HTTPException`
subclasses `Exception` — and then fall through to return the payment
information. -/
def payments_initiate (publicKey : Option String) (rideId : String)
    (date time : Option String) (amount : Nat)
    (holdCall : Except PyExc Bool) : Except PyExc InitiateResponse :=
  if (publicKey.getD "").isEmpty then
    .error (.httpExc 500 "Yoco public key not configured")
  else
    match
      (if pyTruthy date && pyTruthy time then holdTryBody holdCall
       else .ok ()) with
    | .ok _ =>
        .ok ⟨"ZAR", amount, publicKey.getD "",
          rideId ++ "-" ++ date.getD "" ++ "-" ++ time.getD ""⟩
    | .error _ =>
        -- `except Exception: pass` — execution continues to the `return`
        .ok ⟨"ZAR", amount, publicKey.getD "",
          rideId ++ "-" ++ date.getD "" ++ "-" ++ time.getD ""⟩

/-- C2: when the requested slot is already occupied (`hold_slot` returns
`False`), `/payments/initiate` does not surface the 409 conflict: the
`HTTPException(409)` raised inside the `try:` block is swallowed by
`except Exception: pass` (FastAPI `HTTPException` subclasses `Exception`),
and the endpoint proceeds to return HTTP 200 with the payment information,
contrary to the specified conflict contract.  The same block appears
verbatim in `/payments/checkout` and `/payments/link`. -/
theorem initiate_swallows_conflict :
    holdTryBody (.ok false)
      = .error (.httpExc 409 "Selected time slot is no longer available")
    ∧ payments_initiate (some "pk_test") "30-1" (some "2025-08-01")
        (some "10:00") 49900 (.ok false)
      = .ok ⟨"ZAR", 49900, "pk_test", "30-1-2025-08-01-10:00"⟩
    ∧ ∀ detail : String,
        payments_initiate (some "pk_test") "30-1" (some "2025-08-01")
          (some "10:00") 49900 (.ok false) ≠ .error (.httpExc 409 detail) := by
  refine ⟨rfl, rfl, ?_⟩
  intro detail h
  cases h

end JetskiAndMore
